import Mathlib

/-!
Verification of the masjid prayer-time display board.

Shallow embedding of the core logic of the repository:
  - time parsing and the next-prayer resolver (App component, nextPrayerState),
  - the Friday Jumma substitution (same component),
  - the countdown formatter (countdownStr),
  - the notice visibility filter (activeNotices),
  - the storage coordinator (services: getCloudData, syncToCloud),
  - authentication (services/authService.ts: authenticate).

Modelling conventions:
  - JS strings are Lean String values; the JS string operations split,
    toLowerCase and trim are re-implemented structurally over the underlying
    character list so that they compute by kernel reduction.
  - JS Date values are modelled as a local calendar day number plus the
    milliseconds elapsed within that day, in a fixed-offset timezone
    (no DST transitions).
  - JS numbers appearing in the progress computation are modelled as
    rationals; minutes-since-midnight values are naturals or integers.
  - The browser environment (fetch, localStorage) is modelled by explicit
    parameters describing the outcome of the network call and the current
    content of the single localStorage slot used by each function.
-/

namespace Masjid

/-! Data model, following src/types.ts. -/

/-- A prayer entry of the daily schedule: azan and iqamah wall-clock times. -/
structure PrayerTime where
  azan : String
  iqamah : String
deriving DecidableEq, Inhabited

/-- The five daily prayers, as in the DailyPrayers interface. -/
structure DailyPrayers where
  fajr : PrayerTime
  zuhr : PrayerTime
  asr : PrayerTime
  maghrib : PrayerTime
  isha : PrayerTime
deriving DecidableEq, Inhabited

/-- Friday prayer configuration: khutbah and jamaat times. -/
structure JummaTime where
  khutbah : String
  jamaat : String
deriving DecidableEq, Inhabited

/-- Ramadan overlay configuration. -/
structure RamadanTime where
  enabled : Bool
  suhoor : String
  iftar : String
deriving DecidableEq, Inhabited

/-- Masjid profile shown in the header. -/
structure MasjidProfile where
  name : String
  area : String
deriving DecidableEq, Inhabited

/-- A JS Date instant: local calendar day number and milliseconds within
that day, in a fixed-offset timezone. -/
structure JSDate where
  day : Int
  msInDay : Nat
deriving DecidableEq, Inhabited

/-- Epoch milliseconds of a JSDate, the model of Date.getTime. -/
def getTime (t : JSDate) : Int :=
  t.day * 86400000 + (t.msInDay : Int)

/-- A community notice. The creation field date is an ISO timestamp in the
source, modelled here by the instant it denotes; expiryDate, when present,
is a YYYY-MM-DD calendar date, modelled by the instant its Date parse
denotes. -/
structure Notice where
  id : String
  title : String
  message : String
  date : JSDate
  expiryDate : Option JSDate
  isImportant : Bool
deriving DecidableEq, Inhabited

/-- Quick link entry. -/
structure ExternalLink where
  id : String
  title : String
  url : String
deriving DecidableEq, Inhabited

/-- Admin roles. -/
inductive Role where
  | SUPER_ADMIN
  | ADMIN
deriving DecidableEq, Inhabited

/-- An admin user; the password field is optional in the source interface. -/
structure User where
  id : String
  email : String
  password : Option String
  role : Role
  enabled : Bool
deriving DecidableEq, Inhabited

/-- The aggregate application state, as in the AppData interface. -/
structure AppData where
  profile : MasjidProfile
  prayers : DailyPrayers
  jumma : JummaTime
  ramadan : RamadanTime
  notices : List Notice
  users : List User
  links : List ExternalLink
  lastUpdated : String
deriving DecidableEq, Inhabited

/-! Time utilities, following the helpers at the top of the App component. -/

/-- Splitting a character list at every occurrence of a separator, the model
of the JS String.prototype.split used by getMinutes. -/
def splitOnChar (c : Char) : List Char → List (List Char)
  | [] => [[]]
  | x :: xs =>
    let rest := splitOnChar c xs
    if x = c then [] :: rest
    else
      match rest with
      | [] => [[x]]
      | r :: rs => (x :: r) :: rs

/-- Decimal value of a digit string, the model of the JS Number conversion
on the digit substrings produced by time inputs of the form HH:MM. -/
def parseNum (cs : List Char) : Nat :=
  cs.foldl (fun n c => n * 10 + (c.toNat - 48)) 0

/-- Conversion of an HH:MM string to minutes from midnight, following the
getMinutes helper: split on the colon, convert the two parts to numbers and
return h * 60 + m. Inputs that do not have at least two colon-separated
parts are mapped to 0 (the source would produce NaN there; no caller
supplies such input). -/
def getMinutes (time : String) : Nat :=
  match splitOnChar ':' time.data with
  | h :: m :: _ => parseNum h * 60 + parseNum m
  | _ => 0

/-! The resolved prayer schedule, following the schedule construction inside
nextPrayerState in the App component. -/

/-- One entry of the resolved schedule: name, azan and iqamah. -/
structure PrayerEntry where
  name : String
  azan : String
  iqamah : String
deriving DecidableEq, Inhabited

/-- The five-entry ordered schedule built from the daily prayers. -/
def buildSchedule (d : DailyPrayers) : List PrayerEntry :=
  [ { name := "Fajr", azan := d.fajr.azan, iqamah := d.fajr.iqamah },
    { name := "Zuhr", azan := d.zuhr.azan, iqamah := d.zuhr.iqamah },
    { name := "Asr", azan := d.asr.azan, iqamah := d.asr.iqamah },
    { name := "Maghrib", azan := d.maghrib.azan, iqamah := d.maghrib.iqamah },
    { name := "Isha", azan := d.isha.azan, iqamah := d.isha.iqamah } ]

/-- On Friday every entry named Zuhr is replaced in place by the Jumma entry
built from the khutbah and jamaat times; on other days the schedule is kept
unchanged. -/
def applyFriday (isFri : Bool) (j : JummaTime) (schedule : List PrayerEntry) : List PrayerEntry :=
  if isFri then
    schedule.map fun p =>
      if p.name = "Zuhr" then { name := "Jumma", azan := j.khutbah, iqamah := j.jamaat } else p
  else schedule

/-- The schedule fed to the resolver for a given day. -/
def resolvedSchedule (d : DailyPrayers) (j : JummaTime) (isFri : Bool) : List PrayerEntry :=
  applyFriday isFri j (buildSchedule d)

/-! The next-prayer resolver. -/

/-- Index of the first element satisfying a predicate, the model of the JS
Array.prototype.findIndex (none standing for the JS result -1). -/
def findIndex {α : Type} (p : α → Bool) : List α → Option Nat
  | [] => none
  | x :: xs => if p x then some 0 else (findIndex p xs).map (· + 1)

/-- The findIndex predicate of the resolver: the iqamah minute value of the
entry strictly exceeds the current minutes since midnight. -/
def nextPred (currentMinutes : Nat) (p : PrayerEntry) : Bool :=
  getMinutes p.iqamah > currentMinutes

/-- JS Math.min on the rationals modelling JS numbers. -/
def ratMin (a b : ℚ) : ℚ := if a ≤ b then a else b

/-- JS Math.max on the rationals modelling JS numbers. -/
def ratMax (a b : ℚ) : ℚ := if a ≤ b then b else a

/-- The progress computation at the end of nextPrayerState: elapsed over
total duration, scaled to 100 and clamped to the interval from 0 to 100,
with 0 when the total duration is not positive. -/
def progressOf (isTomorrow : Bool) (prevPrayerTime nextPrayerTime : Int) (currentMinutes : Nat) : ℚ :=
  if 0 < nextPrayerTime - prevPrayerTime then
    ratMin 100 (ratMax 0
      ((((if isTomorrow then (currentMinutes : Int) + 24 * 60 else (currentMinutes : Int))
          - prevPrayerTime : Int) : ℚ)
        / ((nextPrayerTime - prevPrayerTime : Int) : ℚ) * 100))
  else 0

/-- Result of the resolver: the next entry, the tomorrow flag, the two
interval endpoints used for the progress bar, and the progress value. -/
structure NextPrayerResult where
  name : String
  azan : String
  iqamah : String
  isTomorrow : Bool
  prevPrayerTime : Int
  nextPrayerTime : Int
  progress : ℚ
deriving DecidableEq

/-- The next-prayer resolver, following nextPrayerState in the App
component: scan the schedule for the first entry whose iqamah exceeds the
current minutes; when none exists the next prayer is the first entry marked
as tomorrow, the previous prayer is the fifth entry (Isha) and 24 hours are
added to the next time; otherwise the previous entry is the cyclic
predecessor, with 24 hours subtracted from its time when the next index
is 0. -/
def nextPrayerState (schedule : List PrayerEntry) (currentMinutes : Nat) : NextPrayerResult :=
  match findIndex (nextPred currentMinutes) schedule with
  | some nextIndex =>
    let next := schedule.getD nextIndex default
    let prevIndex := if nextIndex = 0 then 4 else nextIndex - 1
    let prev := schedule.getD prevIndex default
    let prevPrayerTime : Int :=
      if nextIndex = 0 then (getMinutes prev.iqamah : Int) - 24 * 60
      else (getMinutes prev.iqamah : Int)
    let nextPrayerTime : Int := (getMinutes next.iqamah : Int)
    { name := next.name, azan := next.azan, iqamah := next.iqamah, isTomorrow := false,
      prevPrayerTime := prevPrayerTime, nextPrayerTime := nextPrayerTime,
      progress := progressOf false prevPrayerTime nextPrayerTime currentMinutes }
  | none =>
    let next := schedule.getD 0 default
    let isha := schedule.getD 4 default
    let prevPrayerTime : Int := (getMinutes isha.iqamah : Int)
    let nextPrayerTime : Int := (getMinutes next.iqamah : Int) + 24 * 60
    { name := next.name, azan := next.azan, iqamah := next.iqamah, isTomorrow := true,
      prevPrayerTime := prevPrayerTime, nextPrayerTime := nextPrayerTime,
      progress := progressOf true prevPrayerTime nextPrayerTime currentMinutes }

/-! The countdown formatter, following countdownStr in the App component. -/

/-- Two-digit zero padding, the model of padStart 2 on the values produced
by the countdown (all below 100). -/
def pad2 (n : Nat) : String :=
  if n < 10 then "0" ++ toString n else toString n

/-- Milliseconds from local midnight of today to the countdown target: the
iqamah time of the resolved next prayer on today, or on tomorrow when the
tomorrow flag is set. The target has its seconds and milliseconds fields
set to 0 by the source. -/
def countdownTarget (e : NextPrayerResult) : Int :=
  ((getMinutes e.iqamah : Int) + (if e.isTomorrow then 24 * 60 else 0)) * 60000

/-- The countdown formatter: difference between the target instant and now
(given as milliseconds since local midnight of today), clamped to the
string 00:00:00 when negative, otherwise rendered as HH:MM:SS with
floor-rounded components. -/
def countdownStr (e : NextPrayerResult) (nowMsOfDay : Nat) : String :=
  let diff : Int := countdownTarget e - (nowMsOfDay : Int)
  if diff < 0 then "00:00:00"
  else
    let d := diff.toNat
    pad2 (d / 3600000) ++ ":" ++ pad2 (d % 3600000 / 60000) ++ ":" ++ pad2 (d % 60000 / 1000)

/-! The notice visibility filter, following activeNotices in the App
component. -/

/-- Visibility test of one notice: visible when it has no expiry date, or
when the start-of-day timestamp of its expiry date is at or after the
start-of-day timestamp of today. -/
def noticeVisible (todayStart : Int) (n : Notice) : Bool :=
  match n.expiryDate with
  | none => true
  | some e => todayStart ≤ e.day * 86400000

/-- The notice filter: keep the visible notices and sort them by creation
date, most recent first (the JS comparator b.date minus a.date; the sort
used by the model is a stable merge sort, matching the stable JS
Array.prototype.sort). -/
def activeNotices (notices : List Notice) (now : JSDate) : List Notice :=
  (notices.filter (noticeVisible (now.day * 86400000))).mergeSort
    fun a b => getTime b.date ≤ getTime a.date

/-! The storage coordinator, following services (getCloudData and
syncToCloud). -/

/-- The JSON document shape of the remote payload and of the local cache
slot: the fields the source inspects before use (prayers, users, links) are
optional, the remaining fields are carried through unchanged. -/
structure CloudDoc where
  profile : MasjidProfile
  prayers : Option DailyPrayers
  jumma : JummaTime
  ramadan : RamadanTime
  notices : List Notice
  users : Option (List User)
  links : Option (List ExternalLink)
  lastUpdated : String
deriving DecidableEq, Inhabited

/-- The document encoding of a full application state. -/
def toDoc (a : AppData) : CloudDoc :=
  { profile := a.profile, prayers := some a.prayers, jumma := a.jumma, ramadan := a.ramadan,
    notices := a.notices, users := some a.users, links := some a.links,
    lastUpdated := a.lastUpdated }

/-- The links migration of the source: a missing links collection is
back-filled with the empty list. -/
def fixLinks (d : CloudDoc) : CloudDoc :=
  { d with links := some (d.links.getD []) }

/-- Content of the localStorage offline cache slot: absent, present but not
parseable as JSON, or parseable to a document. -/
inductive CacheState where
  | corrupt
  | good (doc : CloudDoc)
deriving DecidableEq, Inhabited

/-- Outcome of the GET request of getCloudData: a network error or a JSON
parse error (both reach the same catch block), a non-OK HTTP response, or
an OK response whose body parsed to a document. -/
inductive FetchOutcome where
  | fail
  | notOk
  | success (body : CloudDoc)
deriving DecidableEq, Inhabited

/-- Outcome of the POST request of syncToCloud: a network error, or an HTTP
response with its ok flag and status code. -/
inductive PostOutcome where
  | netErr
  | resp (ok : Bool) (status : Nat)
deriving DecidableEq, Inhabited

/-- The built-in default state of the storage service, parameterised by the
two module-initialisation timestamps the source takes from new Date(). -/
def INITIAL_DATA (initDate : JSDate) (initIso : String) : AppData :=
  { profile := { name := "Masjid Al-Noor", area := "Downtown Community" },
    prayers :=
      { fajr := { azan := "05:30", iqamah := "06:00" },
        zuhr := { azan := "13:00", iqamah := "13:30" },
        asr := { azan := "16:30", iqamah := "17:00" },
        maghrib := { azan := "19:45", iqamah := "19:55" },
        isha := { azan := "21:00", iqamah := "21:30" } },
    jumma := { khutbah := "13:15", jamaat := "13:45" },
    ramadan := { enabled := false, suhoor := "04:45", iftar := "19:55" },
    notices :=
      [ { id := "welcome-msg", title := "System Connected",
          message := "The prayer display system is online and synced.",
          date := initDate, expiryDate := none, isImportant := false } ],
    users :=
      [ { id := "root-super-admin", email := "darzaid700@gmail.com",
          password := some "darzaid123", role := Role.SUPER_ADMIN, enabled := true } ],
    links := [],
    lastUpdated := initIso }

/-- The load operation, following getCloudData: on an OK response whose body
has prayers and users present, back-fill links, write the result to the
cache slot and return it; otherwise fall back to the cache (links
back-filled the same way, the slot left unchanged); a missing or corrupt
cache yields the built-in default state. Returns the loaded document and
the new content of the cache slot. -/
def getCloudData (initial : AppData) (remote : FetchOutcome) (cache : Option CacheState) :
    CloudDoc × Option CacheState :=
  let cloudData : Option CloudDoc :=
    match remote with
    | .success body =>
      if body.prayers.isSome && body.users.isSome then some (fixLinks body) else none
    | _ => none
  match cloudData with
  | some cd => (cd, some (CacheState.good cd))
  | none =>
    match cache with
    | some (CacheState.good doc) => (fixLinks doc, cache)
    | some CacheState.corrupt => (toDoc initial, cache)
    | none => (toDoc initial, cache)

/-- The lastUpdated stamping at the top of syncToCloud. -/
def stampData (data : AppData) (nowIso : String) : AppData :=
  { data with lastUpdated := nowIso }

/-- The body of the try block of syncToCloud: an error for a rejected
fetch, success for an OK response, an early return (success) for a 404
status, and a thrown error for any other non-OK status. -/
def syncAttempt (post : PostOutcome) : Except String Unit :=
  match post with
  | .netErr => .error "network error"
  | .resp ok status =>
    if ok then .ok ()
    else if status = 404 then .ok ()
    else .error ("Sync failed with status: " ++ toString status)

/-- The save operation, following syncToCloud: stamp lastUpdated with the
current instant, write the stamped state to the cache slot, then attempt
the remote write; the catch block swallows every error of the attempt.
Returns the new cache slot content, the payload sent to the remote store,
and the settlement of the returned promise. -/
def syncToCloud (data : AppData) (nowIso : String) (post : PostOutcome) :
    Option CacheState × CloudDoc × Except String Unit :=
  let updatedData := stampData data nowIso
  let payload := toDoc updatedData
  let outcome : Except String Unit :=
    match syncAttempt post with
    | .ok u => .ok u
    | .error _ => .ok ()
  (some (CacheState.good payload), payload, outcome)

/-! Authentication, following services/authService.ts. -/

/-- JS String.prototype.toLowerCase, modelled characterwise. -/
def toLowerStr (s : String) : String :=
  ⟨s.data.map Char.toLower⟩

/-- JS String.prototype.trim: whitespace removed from both ends. -/
def trimStr (s : String) : String :=
  ⟨((s.data.dropWhile Char.isWhitespace).reverse.dropWhile Char.isWhitespace).reverse⟩

/-- Session timeout of 20 minutes, in milliseconds. -/
def SESSION_TIMEOUT_MS : Int := 20 * 60 * 1000

/-- A stored session: the sanitized user and the absolute expiry instant. -/
structure SessionData where
  user : User
  expiry : Int
deriving DecidableEq, Inhabited

/-- The find predicate of authenticate: the stored email lowercased equals
the input email lowercased and trimmed, and the stored password equals the
input password exactly. -/
def authPred (email password : String) (u : User) : Bool :=
  toLowerStr u.email = trimStr (toLowerStr email) && u.password = some password

/-- The authenticate operation: find the first user matching the
credentials; when it exists and is enabled, return it sanitized (password
removed) and store a session for it; otherwise return none and leave the
session slot unchanged. Parameters: the user list of the loaded state, the
login form inputs, the current instant, and the session slot content. -/
def authenticate (users : List User) (email password : String) (now : Int)
    (slot : Option SessionData) : Option User × Option SessionData :=
  match users.find? (authPred email password) with
  | some user =>
    if user.enabled then
      let sessionUser := { user with password := none }
      (some sessionUser, some { user := sessionUser, expiry := now + SESSION_TIMEOUT_MS })
    else (none, slot)
  | none => (none, slot)

/-! Concrete values used by witnesses and counterexamples. -/

/-- The daily prayers of the built-in default state. -/
def initialPrayers : DailyPrayers :=
  (INITIAL_DATA default "").prayers

/-- The Jumma times of the built-in default state. -/
def initialJumma : JummaTime :=
  (INITIAL_DATA default "").jumma

/-- The resolved schedule of the built-in default state on a non-Friday. -/
def initialSchedule : List PrayerEntry :=
  resolvedSchedule initialPrayers initialJumma false

/-- A concrete resolver result used by witnesses: next prayer Asr at
17:00 on the same day. -/
def sampleNext : NextPrayerResult :=
  { name := "Asr", azan := "16:30", iqamah := "17:00", isTomorrow := false,
    prevPrayerTime := 810, nextPrayerTime := 1020, progress := 0 }

/-- A concrete application state used by witnesses. -/
def sampleState : AppData :=
  INITIAL_DATA default "2024-01-01T00:00:00.000Z"

/-- The document encoding of the concrete state. -/
def sampleDoc : CloudDoc :=
  toDoc sampleState

/-- The concrete document with the links collection missing. -/
def sampleDocNoLinks : CloudDoc :=
  { sampleDoc with links := none }

/-- The concrete document with the users collection missing. -/
def sampleDocNoUsers : CloudDoc :=
  { sampleDoc with users := none }

/-- A concrete user list used by witnesses. -/
def sampleUsers : List User :=
  [ { id := "u1", email := "Admin@Masjid.org", password := some "pw123",
      role := Role.ADMIN, enabled := true } ]

/-! Helper lemmas about findIndex. -/

theorem findIndex_none_spec {α : Type} (p : α → Bool) (l : List α) (d : α)
    (h : findIndex p l = none) : ∀ j, j < l.length → p (l.getD j d) = false := by
  induction l with
  | nil => intro j hj; simp at hj
  | cons x xs ih =>
    have hx : p x = false := by
      by_contra hx
      simp [findIndex, eq_true_of_ne_false hx] at h
    have hxs : findIndex p xs = none := by
      simpa [findIndex, hx] using h
    intro j hj
    cases j with
    | zero => simpa using hx
    | succ k =>
      have hk : k < xs.length := by simpa using hj
      simpa using ih hxs k hk

theorem findIndex_some_spec {α : Type} (p : α → Bool) (l : List α) (d : α) :
    ∀ i, findIndex p l = some i →
      i < l.length ∧ p (l.getD i d) = true ∧ ∀ j, j < i → p (l.getD j d) = false := by
  induction l with
  | nil => intro i h; simp [findIndex] at h
  | cons x xs ih =>
    intro i h
    by_cases hx : p x
    · have h0 : i = 0 := by
        have := h
        simp [findIndex, hx] at this
        omega
      subst h0
      refine ⟨by simp, by simpa using hx, ?_⟩
      intro j hj; omega
    · have hmap : (findIndex p xs).map (· + 1) = some i := by
        simpa [findIndex, hx] using h
      obtain ⟨i', hi', rfl⟩ := Option.map_eq_some'.mp hmap
      obtain ⟨hlen, hpi, hprev⟩ := ih i' hi'
      refine ⟨by simpa using Nat.succ_lt_succ hlen, by simpa using hpi, ?_⟩
      intro j hj
      cases j with
      | zero => simpa using eq_false_of_ne_true hx
      | succ k => simpa using hprev k (by omega)

/-! Helper lemmas about the clamping functions and the progress value. -/

theorem ratMin_le_left (a b : ℚ) : ratMin a b ≤ a := by
  unfold ratMin; split_ifs with h
  · exact le_refl a
  · exact le_of_not_le h

theorem ratMin_le_right (a b : ℚ) : ratMin a b ≤ b := by
  unfold ratMin; split_ifs with h
  · exact h
  · exact le_refl b

theorem le_ratMax_left (a b : ℚ) : a ≤ ratMax a b := by
  unfold ratMax; split_ifs with h
  · exact h
  · exact le_refl a

theorem le_ratMin (c a b : ℚ) (ha : c ≤ a) (hb : c ≤ b) : c ≤ ratMin a b := by
  unfold ratMin; split_ifs <;> assumption

theorem ratMax_mono_right (a b c : ℚ) (h : b ≤ c) : ratMax a b ≤ ratMax a c := by
  unfold ratMax; split_ifs with h1 h2 h2
  · exact h
  · exact absurd (le_trans h1 h) h2
  · exact h2
  · exact le_refl a

theorem ratMin_mono_right (a b c : ℚ) (h : b ≤ c) : ratMin a b ≤ ratMin a c := by
  unfold ratMin; split_ifs with h1 h2 h2
  · exact le_refl a
  · exact le_trans h1 h
  · exact le_of_not_le h1
  · exact h

theorem ratMax_lt (a b c : ℚ) (ha : a < c) (hb : b < c) : ratMax a b < c := by
  unfold ratMax; split_ifs <;> assumption

theorem clamp01_nonneg (x : ℚ) : 0 ≤ ratMin 100 (ratMax 0 x) :=
  le_ratMin 0 100 (ratMax 0 x) (by norm_num) (le_ratMax_left 0 x)

theorem clamp01_le (x : ℚ) : ratMin 100 (ratMax 0 x) ≤ 100 :=
  ratMin_le_left 100 (ratMax 0 x)

theorem clamp01_mono (x y : ℚ) (h : x ≤ y) :
    ratMin 100 (ratMax 0 x) ≤ ratMin 100 (ratMax 0 y) :=
  ratMin_mono_right 100 _ _ (ratMax_mono_right 0 x y h)

theorem clamp01_lt_100 (x : ℚ) (h : x < 100) : ratMin 100 (ratMax 0 x) < 100 :=
  lt_of_le_of_lt (ratMin_le_right 100 (ratMax 0 x)) (ratMax_lt 0 x 100 (by norm_num) h)

theorem clamp01_zero : ratMin 100 (ratMax 0 (0 : ℚ)) = 0 := by
  unfold ratMax ratMin
  rw [if_pos (le_refl (0 : ℚ))]
  rw [if_neg (by norm_num : ¬(100 : ℚ) ≤ 0)]

theorem progressOf_nonneg (t : Bool) (p n : Int) (cm : Nat) : 0 ≤ progressOf t p n cm := by
  unfold progressOf
  split_ifs <;> first | exact clamp01_nonneg _ | exact le_refl 0

theorem progressOf_le_100 (t : Bool) (p n : Int) (cm : Nat) : progressOf t p n cm ≤ 100 := by
  unfold progressOf
  split_ifs <;> first | exact clamp01_le _ | norm_num

theorem progressOf_total_nonpos (t : Bool) (p n : Int) (cm : Nat) (h : n - p ≤ 0) :
    progressOf t p n cm = 0 := by
  unfold progressOf
  rw [if_neg (not_lt.mpr h)]

theorem progressOf_mono (t : Bool) (p n : Int) (cm1 cm2 : Nat) (h : cm1 ≤ cm2) :
    progressOf t p n cm1 ≤ progressOf t p n cm2 := by
  have htq : 0 < n - p → (0 : ℚ) < ((n - p : Int) : ℚ) := fun ht => by exact_mod_cast ht
  unfold progressOf
  split_ifs with htot hT
  · apply clamp01_mono
    refine mul_le_mul_of_nonneg_right ?_ (by norm_num)
    refine (div_le_div_iff_of_pos_right (htq htot)).mpr ?_
    have : ((cm1 : Int) + 24 * 60 - p) ≤ ((cm2 : Int) + 24 * 60 - p) := by omega
    exact_mod_cast this
  · apply clamp01_mono
    refine mul_le_mul_of_nonneg_right ?_ (by norm_num)
    refine (div_le_div_iff_of_pos_right (htq htot)).mpr ?_
    have : ((cm1 : Int) - p) ≤ ((cm2 : Int) - p) := by omega
    exact_mod_cast this
  · exact le_refl 0

theorem progressOf_at_prev (p n : Int) (cm : Nat) (h : (cm : Int) = p) :
    progressOf false p n cm = 0 := by
  unfold progressOf
  rw [if_neg (by simp : ¬((false : Bool) = true))]
  rw [h, sub_self, Int.cast_zero, zero_div, zero_mul]
  split_ifs with htot
  · exact clamp01_zero
  · rfl

theorem progressOf_lt_100 (p n : Int) (cm : Nat) (h : (cm : Int) < n) :
    progressOf false p n cm < 100 := by
  unfold progressOf
  rw [if_neg (by simp : ¬((false : Bool) = true))]
  split_ifs with htot
  · apply clamp01_lt_100
    have heltq : (((cm : Int) - p : Int) : ℚ) < ((n - p : Int) : ℚ) := by
      exact_mod_cast (by omega : (cm : Int) - p < n - p)
    have hq : (0 : ℚ) < ((n - p : Int) : ℚ) := by exact_mod_cast htot
    calc (((cm : Int) - p : Int) : ℚ) / ((n - p : Int) : ℚ) * 100
        < 1 * 100 := mul_lt_mul_of_pos_right ((div_lt_one hq).mpr heltq) (by norm_num)
      _ = 100 := by norm_num
  · norm_num

/-- The progress field of the resolver result is the progressOf value of
its other fields. -/
theorem nextPrayerState_progress (s : List PrayerEntry) (cm : Nat) :
    (nextPrayerState s cm).progress =
      progressOf (nextPrayerState s cm).isTomorrow (nextPrayerState s cm).prevPrayerTime
        (nextPrayerState s cm).nextPrayerTime cm := by
  cases h : findIndex (nextPred cm) s <;> simp [nextPrayerState, h]

/-- The document encoding of a full state already has its links field
present, so the links migration leaves it unchanged. -/
theorem fixLinks_toDoc (a : AppData) : fixLinks (toDoc a) = toDoc a := rfl

/-! Claim theorems. -/

/-- C1: for every five-entry ordered schedule and every current
time-of-day, the resolver returns the first schedule entry whose iqamah
minute value strictly exceeds the current minutes since midnight, with
isTomorrow false (so at an instant exactly equal to an iqamah minute that
prayer is not returned); when no entry qualifies it returns the first
entry with isTomorrow true. -/
theorem nextPrayer_resolution (s : List PrayerEntry) (cm : Nat) (h5 : s.length = 5) :
    (∃ i, i < 5 ∧ getMinutes ((s.getD i default).iqamah) > cm ∧
      (∀ j, j < i → getMinutes ((s.getD j default).iqamah) ≤ cm) ∧
      (nextPrayerState s cm).name = (s.getD i default).name ∧
      (nextPrayerState s cm).azan = (s.getD i default).azan ∧
      (nextPrayerState s cm).iqamah = (s.getD i default).iqamah ∧
      (nextPrayerState s cm).isTomorrow = false)
    ∨ ((∀ j, j < 5 → getMinutes ((s.getD j default).iqamah) ≤ cm) ∧
      (nextPrayerState s cm).name = (s.getD 0 default).name ∧
      (nextPrayerState s cm).azan = (s.getD 0 default).azan ∧
      (nextPrayerState s cm).iqamah = (s.getD 0 default).iqamah ∧
      (nextPrayerState s cm).isTomorrow = true) := by
  cases h : findIndex (nextPred cm) s with
  | none =>
    right
    have hall := findIndex_none_spec (nextPred cm) s default h
    refine ⟨?_, ?_, ?_, ?_, ?_⟩
    · intro j hj
      have := hall j (by omega)
      unfold nextPred at this
      simpa using this
    all_goals simp [nextPrayerState, h]
  | some i =>
    left
    obtain ⟨hilen, hpi, hprev⟩ := findIndex_some_spec (nextPred cm) s default i h
    refine ⟨i, by omega, ?_, ?_, ?_, ?_, ?_, ?_⟩
    · unfold nextPred at hpi
      simpa using hpi
    · intro j hj
      have := hprev j hj
      unfold nextPred at this
      simpa using this
    all_goals simp [nextPrayerState, h]

/-- Witness for C1 at the default schedule and 15:00. -/
theorem nextPrayer_resolution_witness :
    initialSchedule.length = 5 ∧
    ((∃ i, i < 5 ∧ getMinutes ((initialSchedule.getD i default).iqamah) > 900 ∧
      (∀ j, j < i → getMinutes ((initialSchedule.getD j default).iqamah) ≤ 900) ∧
      (nextPrayerState initialSchedule 900).name = (initialSchedule.getD i default).name ∧
      (nextPrayerState initialSchedule 900).azan = (initialSchedule.getD i default).azan ∧
      (nextPrayerState initialSchedule 900).iqamah = (initialSchedule.getD i default).iqamah ∧
      (nextPrayerState initialSchedule 900).isTomorrow = false)
    ∨ ((∀ j, j < 5 → getMinutes ((initialSchedule.getD j default).iqamah) ≤ 900) ∧
      (nextPrayerState initialSchedule 900).name = (initialSchedule.getD 0 default).name ∧
      (nextPrayerState initialSchedule 900).azan = (initialSchedule.getD 0 default).azan ∧
      (nextPrayerState initialSchedule 900).iqamah = (initialSchedule.getD 0 default).iqamah ∧
      (nextPrayerState initialSchedule 900).isTomorrow = true)) :=
  ⟨by decide, nextPrayer_resolution initialSchedule 900 (by decide)⟩

/-- C4: on a Friday the resolved schedule replaces Zuhr in place by the
Jumma entry built from khutbah and jamaat, contains no Zuhr entry, and
keeps the other entries and their order unchanged; on other days it
contains Zuhr at position 1 and no Jumma entry. -/
theorem fridaySchedule_spec (d : DailyPrayers) (j : JummaTime) :
    resolvedSchedule d j true =
      [ { name := "Fajr", azan := d.fajr.azan, iqamah := d.fajr.iqamah },
        { name := "Jumma", azan := j.khutbah, iqamah := j.jamaat },
        { name := "Asr", azan := d.asr.azan, iqamah := d.asr.iqamah },
        { name := "Maghrib", azan := d.maghrib.azan, iqamah := d.maghrib.iqamah },
        { name := "Isha", azan := d.isha.azan, iqamah := d.isha.iqamah } ] ∧
    ((resolvedSchedule d j true).all fun p => p.name ≠ "Zuhr") = true ∧
    ((resolvedSchedule d j true).getD 1 default).name = "Jumma" ∧
    resolvedSchedule d j false = buildSchedule d ∧
    ((resolvedSchedule d j false).all fun p => p.name ≠ "Jumma") = true ∧
    ((resolvedSchedule d j false).getD 1 default).name = "Zuhr" := by
  refine ⟨?_, ?_, ?_, ?_, ?_, ?_⟩ <;>
    simp [resolvedSchedule, applyFriday, buildSchedule]

/-- C5 (amended): for every schedule and instant the progress value lies
between 0 and 100 and equals 0 whenever the interval total duration is zero
or negative; progress is monotonically non-decreasing as the instant
advances within one inter-prayer interval (same resolver selection); when
the resolver selects a next entry at a positive index, progress equals 0 at
the iqamah instant of the entry just before it; and within every same-day
interval progress stays strictly below 100 - it does not reach 100 at the
next iqamah instant, where the resolver has already advanced to the
following interval. -/
theorem progress_properties :
    (∀ (s : List PrayerEntry) (cm : Nat),
      0 ≤ (nextPrayerState s cm).progress ∧ (nextPrayerState s cm).progress ≤ 100) ∧
    (∀ (s : List PrayerEntry) (cm : Nat),
      (nextPrayerState s cm).nextPrayerTime - (nextPrayerState s cm).prevPrayerTime ≤ 0 →
      (nextPrayerState s cm).progress = 0) ∧
    (∀ (s : List PrayerEntry) (cm1 cm2 : Nat), cm1 ≤ cm2 →
      findIndex (nextPred cm1) s = findIndex (nextPred cm2) s →
      (nextPrayerState s cm1).progress ≤ (nextPrayerState s cm2).progress) ∧
    (∀ (s : List PrayerEntry) (cm i : Nat),
      findIndex (nextPred cm) s = some i → 1 ≤ i →
      (cm : Int) = (getMinutes ((s.getD (i - 1) default).iqamah) : Int) →
      (nextPrayerState s cm).progress = 0) ∧
    (∀ (s : List PrayerEntry) (cm : Nat),
      (nextPrayerState s cm).isTomorrow = false → (nextPrayerState s cm).progress < 100) := by
  refine ⟨?_, ?_, ?_, ?_, ?_⟩
  · intro s cm
    rw [nextPrayerState_progress]
    exact ⟨progressOf_nonneg _ _ _ _, progressOf_le_100 _ _ _ _⟩
  · intro s cm h
    rw [nextPrayerState_progress]
    exact progressOf_total_nonpos _ _ _ _ h
  · intro s cm1 cm2 hle heq
    cases h1 : findIndex (nextPred cm1) s with
    | none =>
      have h2 : findIndex (nextPred cm2) s = none := by rw [← heq, h1]
      simp only [nextPrayerState, h1, h2]
      exact progressOf_mono _ _ _ _ _ hle
    | some i =>
      have h2 : findIndex (nextPred cm2) s = some i := by rw [← heq, h1]
      simp only [nextPrayerState, h1, h2]
      exact progressOf_mono _ _ _ _ _ hle
  · intro s cm i hfind hi hcm
    have hi0 : ¬(i = 0) := by omega
    simp only [nextPrayerState, hfind, hi0, if_false]
    exact progressOf_at_prev _ _ _ hcm
  · intro s cm h
    cases hf : findIndex (nextPred cm) s with
    | none => simp [nextPrayerState, hf] at h
    | some i =>
      obtain ⟨_, hpi, _⟩ := findIndex_some_spec (nextPred cm) s default i hf
      have hlt : cm < getMinutes ((s.getD i default).iqamah) := by
        simpa [nextPred] using hpi
      simp only [nextPrayerState, hf]
      exact progressOf_lt_100 _ _ _ (by exact_mod_cast hlt)

/-- Witness for C5 at the default schedule: monotonicity between 15:00 and
16:40 (same interval), and strictness below 100 on a same-day interval. -/
theorem progress_properties_witness :
    900 ≤ 1000 ∧
    findIndex (nextPred 900) initialSchedule = findIndex (nextPred 1000) initialSchedule ∧
    (nextPrayerState initialSchedule 900).progress ≤
      (nextPrayerState initialSchedule 1000).progress ∧
    (nextPrayerState initialSchedule 900).isTomorrow = false ∧
    (nextPrayerState initialSchedule 900).progress < 100 :=
  ⟨by decide, by decide,
   progress_properties.2.2.1 initialSchedule 900 1000 (by decide) (by decide),
   by decide,
   progress_properties.2.2.2.2 initialSchedule 900 (by decide)⟩

/-- Counterexample to C5 as stated: with the default schedule, at 16:59 the
next prayer is Asr with iqamah 17:00 (minute 1020), but at the iqamah
instant 1020 itself progress is 0 rather than 100 (the resolver has
advanced to the Maghrib interval); moreover at the Isha iqamah instant 1290
the resolver reports the tomorrow interval whose previous time is 1290, yet
progress there is 100 rather than 0. -/
theorem progress_boundary_cex :
    (nextPrayerState initialSchedule 1019).iqamah = "17:00" ∧
    getMinutes "17:00" = 1020 ∧
    (nextPrayerState initialSchedule 1020).progress = 0 ∧
    ¬((nextPrayerState initialSchedule 1020).progress = 100) ∧
    getMinutes ((initialSchedule.getD 4 default).iqamah) = 1290 ∧
    (nextPrayerState initialSchedule 1290).prevPrayerTime = 1290 ∧
    (nextPrayerState initialSchedule 1290).progress = 100 := by
  have hprev : (nextPrayerState initialSchedule 1020).prevPrayerTime = 1020 := by decide
  have hnext : (nextPrayerState initialSchedule 1020).nextPrayerTime = 1195 := by decide
  have htom : (nextPrayerState initialSchedule 1020).isTomorrow = false := by decide
  have h0 : (nextPrayerState initialSchedule 1020).progress = 0 := by
    rw [nextPrayerState_progress, hprev, hnext, htom]
    exact progressOf_at_prev 1020 1195 1020 (by norm_num)
  have hprev2 : (nextPrayerState initialSchedule 1290).prevPrayerTime = 1290 := by decide
  have hnext2 : (nextPrayerState initialSchedule 1290).nextPrayerTime = 1800 := by decide
  have htom2 : (nextPrayerState initialSchedule 1290).isTomorrow = true := by decide
  have h100 : (nextPrayerState initialSchedule 1290).progress = 100 := by
    rw [nextPrayerState_progress, hprev2, hnext2, htom2]
    unfold progressOf
    rw [if_pos (by norm_num : (0 : Int) < 1800 - 1290)]
    have hval : ((((1290 : Nat) : Int) + 24 * 60 - 1290 : Int) : ℚ)
        / ((1800 - 1290 : Int) : ℚ) * 100 = 4800 / 17 := by norm_num
    rw [if_pos (by norm_num : ((true : Bool) = true))]
    rw [hval]
    unfold ratMax ratMin
    rw [if_pos (by norm_num : (0 : ℚ) ≤ 4800 / 17)]
    rw [if_pos (by norm_num : (100 : ℚ) ≤ 4800 / 17)]
  refine ⟨by decide, by decide, h0, by rw [h0]; norm_num, by decide, hprev2, h100⟩

/-- C6: with the default schedule at 22:00 on a non-Friday the resolver
returns Fajr with isTomorrow true and computes the progress window from the
Isha iqamah (1290 minutes) to the Fajr iqamah plus 24 hours (1800 minutes),
a 510-minute total, the 24-hour addition being the midnight-rollover
adjustment. -/
theorem rollover_example :
    (nextPrayerState initialSchedule 1320).name = "Fajr" ∧
    (nextPrayerState initialSchedule 1320).isTomorrow = true ∧
    (nextPrayerState initialSchedule 1320).prevPrayerTime = 1290 ∧
    getMinutes ((initialSchedule.getD 4 default).iqamah) = 1290 ∧
    (nextPrayerState initialSchedule 1320).nextPrayerTime = 1800 ∧
    (nextPrayerState initialSchedule 1320).nextPrayerTime =
      (getMinutes ((initialSchedule.getD 0 default).iqamah) : Int) + 24 * 60 ∧
    (nextPrayerState initialSchedule 1320).nextPrayerTime -
      (nextPrayerState initialSchedule 1320).prevPrayerTime = 510 := by
  refine ⟨by decide, by decide, by decide, by decide, by decide, by decide, by decide⟩

/-- C7: for every notice list and every value of today, the visibility
filter returns exactly the notices whose expiry date is absent or whose
expiry calendar day is on or after today (so a notice expiring today is
included all day and one expiring yesterday is excluded), sorted descending
by creation date. -/
theorem activeNotices_spec (notices : List Notice) (now : JSDate) :
    (∀ n, n ∈ activeNotices notices now ↔
      (n ∈ notices ∧ (n.expiryDate = none ∨ ∃ e, n.expiryDate = some e ∧ now.day ≤ e.day))) ∧
    (activeNotices notices now).Perm
      (notices.filter (noticeVisible (now.day * 86400000))) ∧
    List.Pairwise (fun a b => getTime b.date ≤ getTime a.date) (activeNotices notices now) := by
  have hperm : (activeNotices notices now).Perm
      (notices.filter (noticeVisible (now.day * 86400000))) :=
    List.mergeSort_perm _ _
  refine ⟨?_, hperm, ?_⟩
  · intro n
    rw [hperm.mem_iff, List.mem_filter]
    constructor
    · rintro ⟨hmem, hvis⟩
      refine ⟨hmem, ?_⟩
      cases he : n.expiryDate with
      | none => exact Or.inl rfl
      | some e =>
        refine Or.inr ⟨e, rfl, ?_⟩
        unfold noticeVisible at hvis
        rw [he] at hvis
        have : now.day * 86400000 ≤ e.day * 86400000 := by simpa using hvis
        omega
    · rintro ⟨hmem, hvis⟩
      refine ⟨hmem, ?_⟩
      unfold noticeVisible
      rcases hvis with he | ⟨e, he, hday⟩
      · rw [he]
      · rw [he]
        simpa using (by omega : now.day * 86400000 ≤ e.day * 86400000)
  · have hs := @List.sorted_mergeSort Notice
      (fun a b => decide (getTime b.date ≤ getTime a.date))
      (by
        intro a b c hab hbc
        simp only [decide_eq_true_eq] at hab hbc ⊢
        exact le_trans hbc hab)
      (by
        intro a b
        simp only [Bool.or_eq_true, decide_eq_true_eq]
        exact le_total (getTime b.date) (getTime a.date))
      (notices.filter (noticeVisible (now.day * 86400000)))
    unfold activeNotices
    exact hs.imp fun h => of_decide_eq_true h

/-- C8: the countdown formatter builds its target from the iqamah of the
resolved next prayer on today, or on tomorrow when the tomorrow flag is
set; a negative remaining duration yields exactly 00:00:00, and otherwise
the rendering is HH:MM:SS with the three components floor-rounded from the
remaining milliseconds. -/
theorem countdownStr_spec (e : NextPrayerResult) (nowMsOfDay : Nat) :
    (countdownTarget e - (nowMsOfDay : Int) < 0 →
      countdownStr e nowMsOfDay = "00:00:00") ∧
    (∀ d : Nat, countdownTarget e - (nowMsOfDay : Int) = (d : Int) →
      ∃ hh mm ss : Nat, mm < 60 ∧ ss < 60 ∧
        countdownStr e nowMsOfDay = pad2 hh ++ ":" ++ pad2 mm ++ ":" ++ pad2 ss ∧
        hh * 3600 + mm * 60 + ss = d / 1000) := by
  constructor
  · intro h
    unfold countdownStr
    rw [if_pos h]
  · intro d hd
    have hnonneg : ¬(countdownTarget e - (nowMsOfDay : Int) < 0) := by
      rw [hd]; omega
    have htonat : (countdownTarget e - (nowMsOfDay : Int)).toNat = d := by
      omega
    refine ⟨d / 3600000, d % 3600000 / 60000, d % 60000 / 1000, by omega, by omega, ?_, by omega⟩
    unfold countdownStr
    rw [if_neg hnonneg, htonat]

/-- Witness for C8: a concrete positive countdown and a concrete
already-passed target. -/
theorem countdownStr_spec_witness :
    (countdownTarget sampleNext - ((61100000 : Nat) : Int) = ((100000 : Nat) : Int) ∧
      ∃ hh mm ss : Nat, mm < 60 ∧ ss < 60 ∧
        countdownStr sampleNext 61100000 = pad2 hh ++ ":" ++ pad2 mm ++ ":" ++ pad2 ss ∧
        hh * 3600 + mm * 60 + ss = 100000 / 1000) ∧
    (countdownTarget sampleNext - ((61300000 : Nat) : Int) < 0 ∧
      countdownStr sampleNext 61300000 = "00:00:00") :=
  ⟨⟨by decide, (countdownStr_spec sampleNext 61100000).2 100000 (by decide)⟩,
   ⟨by decide, (countdownStr_spec sampleNext 61300000).1 (by decide)⟩⟩

/-- C2: the load operation never fails and always returns a usable
document: an OK remote payload with prayers and users present is returned
with links back-filled and is written to the cache; a payload missing a
required field behaves exactly like a failed fetch; on a failed fetch or a
non-OK status the most recent cache is returned links-back-filled, a
corrupt cache falls through to the built-in default state, and an absent
cache yields the built-in default state. -/
theorem getCloudData_spec :
    (∀ (init : AppData) (body : CloudDoc) (cache : Option CacheState),
      body.prayers.isSome = true → body.users.isSome = true →
      getCloudData init (.success body) cache =
        (fixLinks body, some (CacheState.good (fixLinks body)))) ∧
    (∀ (init : AppData) (body : CloudDoc) (cache : Option CacheState),
      body.prayers = none ∨ body.users = none →
      getCloudData init (.success body) cache = getCloudData init .fail cache) ∧
    (∀ (init : AppData) (remote : FetchOutcome) (doc : CloudDoc),
      remote = .fail ∨ remote = .notOk →
      getCloudData init remote (some (CacheState.good doc)) =
        (fixLinks doc, some (CacheState.good doc))) ∧
    (∀ (init : AppData) (remote : FetchOutcome),
      remote = .fail ∨ remote = .notOk →
      getCloudData init remote (some CacheState.corrupt) =
        (toDoc init, some CacheState.corrupt)) ∧
    (∀ (init : AppData) (remote : FetchOutcome),
      remote = .fail ∨ remote = .notOk →
      getCloudData init remote none = (toDoc init, none)) := by
  refine ⟨?_, ?_, ?_, ?_, ?_⟩
  · intro init body cache h1 h2
    simp [getCloudData, h1, h2]
  · intro init body cache h
    rcases h with h | h <;> simp [getCloudData, h]
  · intro init remote doc h
    rcases h with h | h <;> subst h <;> simp [getCloudData]
  · intro init remote h
    rcases h with h | h <;> subst h <;> simp [getCloudData]
  · intro init remote h
    rcases h with h | h <;> subst h <;> simp [getCloudData]

/-- Witness for C2 at concrete documents and cache states. -/
theorem getCloudData_spec_witness :
    (sampleDocNoLinks.prayers.isSome = true ∧ sampleDocNoLinks.users.isSome = true ∧
      getCloudData sampleState (.success sampleDocNoLinks) none =
        (fixLinks sampleDocNoLinks, some (CacheState.good (fixLinks sampleDocNoLinks)))) ∧
    ((sampleDocNoUsers.prayers = none ∨ sampleDocNoUsers.users = none) ∧
      getCloudData sampleState (.success sampleDocNoUsers) (some (CacheState.good sampleDoc)) =
        getCloudData sampleState .fail (some (CacheState.good sampleDoc))) ∧
    ((FetchOutcome.fail = FetchOutcome.fail ∨ FetchOutcome.fail = FetchOutcome.notOk) ∧
      getCloudData sampleState .fail (some (CacheState.good sampleDocNoLinks)) =
        (fixLinks sampleDocNoLinks, some (CacheState.good sampleDocNoLinks))) ∧
    ((FetchOutcome.notOk = FetchOutcome.fail ∨ FetchOutcome.notOk = FetchOutcome.notOk) ∧
      getCloudData sampleState .notOk (some CacheState.corrupt) =
        (toDoc sampleState, some CacheState.corrupt)) ∧
    ((FetchOutcome.fail = FetchOutcome.fail ∨ FetchOutcome.fail = FetchOutcome.notOk) ∧
      getCloudData sampleState .fail none = (toDoc sampleState, none)) :=
  ⟨⟨by decide, by decide,
    getCloudData_spec.1 sampleState sampleDocNoLinks none (by decide) (by decide)⟩,
   ⟨Or.inr (by decide),
    getCloudData_spec.2.1 sampleState sampleDocNoUsers (some (CacheState.good sampleDoc))
      (Or.inr (by decide))⟩,
   ⟨Or.inl rfl,
    getCloudData_spec.2.2.1 sampleState .fail sampleDocNoLinks (Or.inl rfl)⟩,
   ⟨Or.inr rfl,
    getCloudData_spec.2.2.2.1 sampleState .notOk (Or.inr rfl)⟩,
   ⟨Or.inl rfl,
    getCloudData_spec.2.2.2.2 sampleState .fail (Or.inl rfl)⟩⟩

/-- C3: the save operation stamps lastUpdated with the current instant and
writes the stamped state to the local cache slot, whatever the outcome of
the remote write; a load immediately afterwards with the remote store
unavailable returns exactly the stamped state, round-tripped through the
cache. -/
theorem save_load_roundtrip (data : AppData) (nowIso : String) (post : PostOutcome)
    (init : AppData) (remote : FetchOutcome)
    (h : remote = .fail ∨ remote = .notOk) :
    (syncToCloud data nowIso post).1 =
      some (CacheState.good (toDoc (stampData data nowIso))) ∧
    (syncToCloud data nowIso post).2.1 = toDoc (stampData data nowIso) ∧
    (getCloudData init remote (syncToCloud data nowIso post).1).1 =
      toDoc (stampData data nowIso) := by
  refine ⟨rfl, rfl, ?_⟩
  rcases h with h | h <;> subst h <;>
    simp [getCloudData, syncToCloud, fixLinks_toDoc]

/-- Witness for C3 with a successful remote write followed by a failed
fetch. -/
theorem save_load_roundtrip_witness :
    ((FetchOutcome.fail : FetchOutcome) = .fail ∨ (FetchOutcome.fail : FetchOutcome) = .notOk) ∧
    ((syncToCloud sampleState "t1" (.resp true 200)).1 =
      some (CacheState.good (toDoc (stampData sampleState "t1"))) ∧
    (syncToCloud sampleState "t1" (.resp true 200)).2.1 = toDoc (stampData sampleState "t1") ∧
    (getCloudData sampleState .fail (syncToCloud sampleState "t1" (.resp true 200)).1).1 =
      toDoc (stampData sampleState "t1")) :=
  ⟨Or.inl rfl,
   save_load_roundtrip sampleState "t1" (.resp true 200) sampleState .fail (Or.inl rfl)⟩

/-- C10: the promise returned by the save operation always resolves: every
remote-write failure mode (network error, 404, any other non-OK status
whose thrown error is caught by the catch block of the function) is
swallowed, while the attempt itself can genuinely fail. -/
theorem syncToCloud_resolves :
    (∀ (data : AppData) (nowIso : String) (post : PostOutcome),
      (syncToCloud data nowIso post).2.2 = Except.ok ()) ∧
    (∃ post : PostOutcome, syncAttempt post ≠ Except.ok ()) := by
  constructor
  · intro data nowIso post
    unfold syncToCloud
    cases h : syncAttempt post <;> simp
  · exact ⟨.netErr, by simp [syncAttempt]⟩

/-- C9: authentication fails with one and the same result for an unknown
email, for a wrong password and for matching credentials of a disabled
account (so failures are indistinguishable), and succeeds only when some
enabled user matches the input email case-insensitively (input trimmed)
and the password exactly, in which case the returned and session-stored
user carries no password field. -/
theorem authenticate_spec :
    (∀ (users : List User) (email password : String) (now : Int) (slot : Option SessionData),
      users.find? (authPred email password) = none →
      authenticate users email password now slot = (none, slot)) ∧
    (∀ (users : List User) (email password : String) (now : Int) (slot : Option SessionData),
      (∀ u ∈ users, ¬(toLowerStr u.email = trimStr (toLowerStr email))) →
      authenticate users email password now slot = (none, slot)) ∧
    (∀ (users : List User) (email password : String) (now : Int) (slot : Option SessionData),
      (∀ u ∈ users, ¬(u.password = some password)) →
      authenticate users email password now slot = (none, slot)) ∧
    (∀ (users : List User) (email password : String) (now : Int) (slot : Option SessionData)
      (u : User),
      users.find? (authPred email password) = some u → u.enabled = false →
      authenticate users email password now slot = (none, slot)) ∧
    (∀ (users : List User) (e1 p1 e2 p2 : String) (now : Int) (slot : Option SessionData),
      (authenticate users e1 p1 now slot).1 = none →
      (authenticate users e2 p2 now slot).1 = none →
      authenticate users e1 p1 now slot = authenticate users e2 p2 now slot) ∧
    (∀ (users : List User) (email password : String) (now : Int) (slot : Option SessionData)
      (r : User) (slot2 : Option SessionData),
      authenticate users email password now slot = (some r, slot2) →
      ∃ u ∈ users, authPred email password u = true ∧ u.enabled = true ∧
        r = { u with password := none } ∧ r.password = none ∧
        slot2 = some { user := r, expiry := now + SESSION_TIMEOUT_MS }) := by
  have hfail : ∀ (users : List User) (email password : String) (now : Int)
      (slot : Option SessionData),
      (authenticate users email password now slot).1 = none →
      authenticate users email password now slot = (none, slot) := by
    intro users email password now slot h
    unfold authenticate at h ⊢
    cases hf : users.find? (authPred email password) with
    | none => rfl
    | some u =>
      by_cases he : u.enabled
      · rw [hf] at h; simp [he] at h
      · simp [hf, he]
  refine ⟨?_, ?_, ?_, ?_, ?_, ?_⟩
  · intro users email password now slot h
    simp [authenticate, h]
  · intro users email password now slot h
    have hf : users.find? (authPred email password) = none := by
      rw [List.find?_eq_none]
      intro u hu
      unfold authPred
      simp only [Bool.and_eq_true, decide_eq_true_eq, not_and]
      intro hmail
      exact absurd hmail (h u hu)
    simp [authenticate, hf]
  · intro users email password now slot h
    have hf : users.find? (authPred email password) = none := by
      rw [List.find?_eq_none]
      intro u hu
      unfold authPred
      simp only [Bool.and_eq_true, decide_eq_true_eq, not_and]
      intro _ hpw
      exact absurd hpw (h u hu)
    simp [authenticate, hf]
  · intro users email password now slot u hf he
    simp [authenticate, hf, he]
  · intro users e1 p1 e2 p2 now slot h1 h2
    rw [hfail users e1 p1 now slot h1, hfail users e2 p2 now slot h2]
  · intro users email password now slot r slot2 h
    unfold authenticate at h
    cases hf : users.find? (authPred email password) with
    | none => rw [hf] at h; simp at h
    | some u =>
      rw [hf] at h
      by_cases he : u.enabled
      · simp only [he, if_true] at h
        obtain ⟨h1, h2⟩ := Prod.mk.inj h
        have hr : r = { u with password := none } := by
          rw [he]
          exact (Option.some.inj h1).symm
        refine ⟨u, List.mem_of_find?_eq_some hf, List.find?_some hf, he, hr, by rw [hr], ?_⟩
        rw [← h2, hr, he]
      · simp [he] at h

/-- Witness for C9: a concrete success with case-insensitive and trimmed
email match, and concrete indistinguishable failures. -/
theorem authenticate_spec_witness :
    ((authenticate sampleUsers "nobody@x.org" "pw123" 0 none).1 = none ∧
      (authenticate sampleUsers "admin@masjid.org" "wrong" 0 none).1 = none ∧
      authenticate sampleUsers "nobody@x.org" "pw123" 0 none =
        authenticate sampleUsers "admin@masjid.org" "wrong" 0 none) ∧
    (∃ u ∈ sampleUsers, authPred " ADMIN@masjid.ORG" "pw123" u = true ∧ u.enabled = true ∧
      ({ id := "u1", email := "Admin@Masjid.org", password := none,
         role := Role.ADMIN, enabled := true } : User) = { u with password := none } ∧
      (({ id := "u1", email := "Admin@Masjid.org", password := none,
          role := Role.ADMIN, enabled := true } : User)).password = none ∧
      (authenticate sampleUsers " ADMIN@masjid.ORG" "pw123" 0 none).2 =
        some { user := { id := "u1", email := "Admin@Masjid.org", password := none,
                         role := Role.ADMIN, enabled := true },
               expiry := 0 + SESSION_TIMEOUT_MS }) :=
  ⟨⟨by decide, by decide,
    authenticate_spec.2.2.2.2.1 sampleUsers "nobody@x.org" "pw123" "admin@masjid.org" "wrong"
      0 none (by decide) (by decide)⟩,
   authenticate_spec.2.2.2.2.2 sampleUsers " ADMIN@masjid.ORG" "pw123" 0 none
     { id := "u1", email := "Admin@Masjid.org", password := none,
       role := Role.ADMIN, enabled := true }
     (some { user := { id := "u1", email := "Admin@Masjid.org", password := none,
                       role := Role.ADMIN, enabled := true },
             expiry := 0 + SESSION_TIMEOUT_MS })
     (by decide)⟩

end Masjid
